import Mathlib

/-!
Verification of the Dashapp2 radiation-dose application (src/app.py).

The application core consists of five pure dose-response model functions
(src/app.py lines 30-43) mapping a dose in millisievert to a relative risk,
and a calculator callback `update_dose` (src/app.py lines 286-288) mapping a
flight count and an X-ray count to a formatted dose string.

Python float arithmetic is embedded as exact real arithmetic (`ℝ`) for the
model functions (the supra-linear model uses a real exponent 1.5, so real
powers are required), and as exact rational arithmetic (`ℚ`) for the
calculator, whose values are exact multiples of 1/100.  `numpy.where(c, a, b)`
applied to a scalar is embedded as `if c then a else b`.  Python's `:.2f`
format specifier is embedded by rounding the value times 100 to the nearest
integer and printing two fractional digits; every value reachable from the
calculator's natural-number inputs is an exact multiple of 1/100, so the
rounding mode is irrelevant on the reachable domain.
-/

namespace Dashapp

noncomputable section ModelFunctions

/-- `supra_linear_model` from src/app.py line 30: `0.015 * dose ** 1.5`. -/
def supra_linear_model (dose : ℝ) : ℝ :=
  0.015 * dose ^ (1.5 : ℝ)

/-- `lnt_model` from src/app.py line 33: `0.01 * dose`. -/
def lnt_model (dose : ℝ) : ℝ :=
  0.01 * dose

/-- `linear_quadratic_model` from src/app.py line 36:
`0.005 * dose + 0.0001 * dose ** 2`. -/
def linear_quadratic_model (dose : ℝ) : ℝ :=
  0.005 * dose + 0.0001 * dose ^ 2

/-- `hormesis_model` from src/app.py line 39:
`np.where(dose < 20, -0.005 * dose + 0.0002 * dose ** 2, 0.01 * dose)`. -/
def hormesis_model (dose : ℝ) : ℝ :=
  if dose < 20 then -0.005 * dose + 0.0002 * dose ^ 2 else 0.01 * dose

/-- The default value of the `threshold` parameter of
`linear_threshold_model` (src/app.py line 42: `threshold=50`). -/
def default_threshold : ℝ := 50

/-- `linear_threshold_model` from src/app.py line 42:
`np.where(dose < threshold, 0, 0.01 * (dose - threshold))`.
The Python default argument `threshold=50` is `default_threshold`. -/
def linear_threshold_model (dose : ℝ) (threshold : ℝ) : ℝ :=
  if dose < threshold then 0 else 0.01 * (dose - threshold)

end ModelFunctions

/-- Print a number of hundredths as a decimal numeral with exactly two
fractional digits. -/
def render_hundredths (n : ℕ) : String :=
  toString (n / 100) ++ "." ++ (if n % 100 < 10 then "0" else "") ++ toString (n % 100)

/-- Python's `f"{x:.2f}"` on a non-negative value: round `x * 100` to the
nearest integer and print with two fractional digits. -/
def format_fixed2 (q : ℚ) : String :=
  render_hundredths (round (q * 100)).toNat

/-- The dose total computed by `update_dose` (src/app.py line 287):
`(flights * 0.04) + (xrays * 0.1)`. -/
def total_dose (flights xrays : ℕ) : ℚ :=
  (flights : ℚ) * 0.04 + (xrays : ℚ) * 0.1

/-- `update_dose` from src/app.py lines 286-288: returns
`f"Your estimated annual radiation dose from selected activities: {total_dose:.2f} mSv"`. -/
def update_dose (flights xrays : ℕ) : String :=
  "Your estimated annual radiation dose from selected activities: " ++
    format_fixed2 (total_dose flights xrays) ++ " mSv"

/-- Claim C2: the linear-threshold model returns 0 below the threshold and
`0.01 * (dose - threshold)` at or above it; the default threshold is 50, and
at the default threshold risk is 0 below 50, 0 at 50, and 0.1 at 60. -/
theorem linear_threshold_model_spec :
    default_threshold = 50 ∧
    (∀ threshold dose : ℝ, dose < threshold →
      linear_threshold_model dose threshold = 0) ∧
    (∀ threshold dose : ℝ, threshold ≤ dose →
      linear_threshold_model dose threshold = 0.01 * (dose - threshold)) ∧
    (∀ dose : ℝ, dose < 50 → linear_threshold_model dose default_threshold = 0) ∧
    linear_threshold_model 50 default_threshold = 0 ∧
    linear_threshold_model 60 default_threshold = 0.1 := by
  refine ⟨rfl, ?_, ?_, ?_, ?_, ?_⟩
  · intro t d h
    simp [linear_threshold_model, h]
  · intro t d h
    simp [linear_threshold_model, not_lt.mpr h]
  · intro d h
    simp [linear_threshold_model, default_threshold, h]
  · norm_num [linear_threshold_model, default_threshold]
  · norm_num [linear_threshold_model, default_threshold]

/-- Witness for C2: the hypotheses of `linear_threshold_model_spec` are
satisfiable at concrete inputs (dose 30 below the threshold, dose 60 above). -/
theorem linear_threshold_model_spec_witness :
    linear_threshold_model 30 50 = 0 ∧
    linear_threshold_model 60 50 = 0.01 * (60 - 50) := by
  refine ⟨linear_threshold_model_spec.2.1 50 30 (by norm_num),
          linear_threshold_model_spec.2.2.1 50 60 (by norm_num)⟩

/-- The low branch of the hormesis model is a polynomial, hence continuous,
so the hormesis model tends to the low branch's value at 20, namely
`-0.005 * 20 + 0.0002 * 20 ^ 2 = -0.02`, as the dose approaches 20 from the
left. -/
lemma hormesis_tendsto_left :
    Filter.Tendsto hormesis_model (nhdsWithin 20 (Set.Iio 20)) (nhds (-0.02)) := by
  have hcont : Filter.Tendsto (fun d : ℝ => -0.005 * d + 0.0002 * d ^ 2)
      (nhdsWithin 20 (Set.Iio 20)) (nhds (-0.005 * 20 + 0.0002 * 20 ^ 2)) :=
    Filter.Tendsto.mono_left
      (Continuous.tendsto (by continuity) 20) nhdsWithin_le_nhds
  have hval : (-0.005 * 20 + 0.0002 * 20 ^ 2 : ℝ) = -0.02 := by norm_num
  rw [hval] at hcont
  refine hcont.congr' ?_
  filter_upwards [self_mem_nhdsWithin] with x hx
  have hx20 : x < 20 := hx
  simp [hormesis_model, hx20]

/-- Claim C1 (amended): the hormesis model is piecewise with branch boundary
at dose 20: below 20 it returns `-0.005 * d + 0.0002 * d ^ 2` (in particular
risk(10) = -0.03), and at or above 20 it returns `0.01 * d` (in particular
risk(20) = 0.2, i.e. dose 20 takes the `≥ 20` branch), with a jump
discontinuity at dose 20 whose left-limit is -0.02 and right value 0.2. -/
theorem hormesis_model_piecewise :
    (∀ d : ℝ, 0 ≤ d → d < 20 → hormesis_model d = -0.005 * d + 0.0002 * d ^ 2) ∧
    hormesis_model 10 = -0.03 ∧
    (∀ d : ℝ, 20 ≤ d → hormesis_model d = 0.01 * d) ∧
    hormesis_model 20 = 0.2 ∧
    Filter.Tendsto hormesis_model (nhdsWithin 20 (Set.Iio 20)) (nhds (-0.02)) ∧
    ((-0.02 : ℝ) ≠ hormesis_model 20) := by
  refine ⟨?_, ?_, ?_, ?_, hormesis_tendsto_left, ?_⟩
  · intro d _ hd
    simp [hormesis_model, hd]
  · norm_num [hormesis_model]
  · intro d hd
    simp [hormesis_model, not_lt.mpr hd]
  · norm_num [hormesis_model]
  · norm_num [hormesis_model]

/-- Witness for C1: `hormesis_model_piecewise` applied at doses 10 and 25. -/
theorem hormesis_model_piecewise_witness :
    hormesis_model 10 = -0.005 * 10 + 0.0002 * 10 ^ 2 ∧
    hormesis_model 25 = 0.01 * 25 :=
  ⟨hormesis_model_piecewise.1 10 (by norm_num) (by norm_num),
   hormesis_model_piecewise.2.2.1 25 (by norm_num)⟩

/-- Counterexample for C1 as stated: the left-limit of the hormesis model at
dose 20 is -0.02, not ≈ -0.042: the limit from the left is -0.02, the model
does not tend to -0.042 from the left, and the two values differ by 0.022. -/
theorem hormesis_left_limit_counterexample :
    Filter.Tendsto hormesis_model (nhdsWithin 20 (Set.Iio 20)) (nhds (-0.02)) ∧
    ¬ Filter.Tendsto hormesis_model (nhdsWithin 20 (Set.Iio 20)) (nhds (-0.042)) ∧
    |(-0.02 : ℝ) - (-0.042)| = 0.022 := by
  refine ⟨hormesis_tendsto_left, ?_, by norm_num⟩
  intro hbad
  have h := tendsto_nhds_unique hormesis_tendsto_left hbad
  norm_num at h

/-- Claim C7: the supra-linear and linear-quadratic models are monotone
non-decreasing over the dose interval [0, 100]. -/
theorem supra_lq_monotone (d1 d2 : ℝ) (h0 : 0 ≤ d1) (h12 : d1 ≤ d2)
    (_h100 : d2 ≤ 100) :
    supra_linear_model d1 ≤ supra_linear_model d2 ∧
    linear_quadratic_model d1 ≤ linear_quadratic_model d2 := by
  constructor
  · have h := Real.rpow_le_rpow h0 h12 (by norm_num : (0 : ℝ) ≤ 1.5)
    unfold supra_linear_model
    nlinarith [h]
  · unfold linear_quadratic_model
    nlinarith

/-- Witness for C7: `supra_lq_monotone` applied at the dose pair (1, 2). -/
theorem supra_lq_monotone_witness :
    supra_linear_model 1 ≤ supra_linear_model 2 ∧
    linear_quadratic_model 1 ≤ linear_quadratic_model 2 :=
  supra_lq_monotone 1 2 (by norm_num) (by norm_num) (by norm_num)

/-- `100 ^ 1.5 = 1000` over the reals. -/
lemma hundred_rpow : (100 : ℝ) ^ (1.5 : ℝ) = 1000 := by
  rw [show (100 : ℝ) = (10 : ℝ) ^ ((2 : ℕ) : ℝ) by
        rw [Real.rpow_natCast]; norm_num,
      ← Real.rpow_mul (by norm_num : (0 : ℝ) ≤ 10),
      show ((2 : ℕ) : ℝ) * 1.5 = ((3 : ℕ) : ℝ) by norm_num,
      Real.rpow_natCast]
  norm_num

/-- Claim C8: all five model functions are total over [0, 100]: for every dose
in [0, 100] each evaluates to a well-defined finite real risk, bounded as
follows (so no evaluation can fail, overflow or produce an undefined value;
side-effect freedom is expressed by the models being pure functions). -/
theorem all_models_total_bounded (d : ℝ) (h0 : 0 ≤ d) (h100 : d ≤ 100) :
    (0 ≤ supra_linear_model d ∧ supra_linear_model d ≤ 15) ∧
    (0 ≤ lnt_model d ∧ lnt_model d ≤ 1) ∧
    (0 ≤ linear_quadratic_model d ∧ linear_quadratic_model d ≤ 1.5) ∧
    (-1 ≤ hormesis_model d ∧ hormesis_model d ≤ 1) ∧
    (0 ≤ linear_threshold_model d default_threshold ∧
      linear_threshold_model d default_threshold ≤ 0.5) := by
  refine ⟨⟨?_, ?_⟩, ⟨?_, ?_⟩, ⟨?_, ?_⟩, ?_, ?_⟩
  · exact mul_nonneg (by norm_num) (Real.rpow_nonneg h0 1.5)
  · have h := Real.rpow_le_rpow h0 h100 (by norm_num : (0 : ℝ) ≤ 1.5)
    rw [hundred_rpow] at h
    unfold supra_linear_model
    nlinarith [h]
  · unfold lnt_model; nlinarith
  · unfold lnt_model; nlinarith
  · unfold linear_quadratic_model; nlinarith
  · unfold linear_quadratic_model; nlinarith
  · by_cases hd : d < 20
    · constructor <;> simp [hormesis_model, hd] <;> nlinarith
    · constructor <;> simp [hormesis_model, hd] <;>
        [nlinarith; nlinarith [not_lt.mp hd]]
  · unfold linear_threshold_model default_threshold
    by_cases hd : d < 50
    · simp [hd]; norm_num
    · simp [hd]
      constructor <;> nlinarith [not_lt.mp hd]

/-- Witness for C8: `all_models_total_bounded` applied at dose 36. -/
theorem all_models_total_bounded_witness :
    (0 ≤ supra_linear_model 36 ∧ supra_linear_model 36 ≤ 15) ∧
    (0 ≤ lnt_model 36 ∧ lnt_model 36 ≤ 1) ∧
    (0 ≤ linear_quadratic_model 36 ∧ linear_quadratic_model 36 ≤ 1.5) ∧
    (-1 ≤ hormesis_model 36 ∧ hormesis_model 36 ≤ 1) ∧
    (0 ≤ linear_threshold_model 36 default_threshold ∧
      linear_threshold_model 36 default_threshold ≤ 0.5) :=
  all_models_total_bounded 36 (by norm_num) (by norm_num)

/-- Claim C5: all five model functions return risk 0 at dose 0 (the
linear-threshold model taken at its default threshold of 50). -/
theorem all_models_zero_at_zero :
    supra_linear_model 0 = 0 ∧
    lnt_model 0 = 0 ∧
    linear_quadratic_model 0 = 0 ∧
    hormesis_model 0 = 0 ∧
    linear_threshold_model 0 default_threshold = 0 := by
  refine ⟨?_, ?_, ?_, ?_, ?_⟩
  · rw [supra_linear_model, Real.zero_rpow (by norm_num)]
    norm_num
  · norm_num [lnt_model]
  · norm_num [linear_quadratic_model]
  · norm_num [hormesis_model]
  · norm_num [linear_threshold_model, default_threshold]

/-- Claim C6: the LNT model is homogeneous, `risk(2d) = 2 * risk(d)` for every
dose `d ≥ 0`, and the risk is strictly proportional to the dose,
`risk(d) = 0.01 * d`. -/
theorem lnt_model_linear (d : ℝ) (_hd : 0 ≤ d) :
    lnt_model (2 * d) = 2 * lnt_model d ∧ lnt_model d = 0.01 * d := by
  constructor
  · simp [lnt_model]; ring
  · rfl

/-- Witness for C6: `lnt_model_linear` applied at dose 7. -/
theorem lnt_model_linear_witness :
    lnt_model (2 * 7) = 2 * lnt_model 7 ∧ lnt_model 7 = 0.01 * 7 :=
  lnt_model_linear 7 (by norm_num)

/-- Claim C10: at and above dose 20, the hormesis model coincides with the LNT
model, both returning `0.01 * dose`. -/
theorem hormesis_eq_lnt_above_20 (d : ℝ) (hd : 20 ≤ d) :
    hormesis_model d = lnt_model d ∧ lnt_model d = 0.01 * d := by
  constructor
  · simp [hormesis_model, lnt_model, not_lt.mpr hd]
  · rfl

/-- Witness for C10: `hormesis_eq_lnt_above_20` applied at dose 25. -/
theorem hormesis_eq_lnt_above_20_witness :
    hormesis_model 25 = lnt_model 25 ∧ lnt_model 25 = 0.01 * 25 :=
  hormesis_eq_lnt_above_20 25 (by norm_num)

/-- Claim C3: for all non-negative integer counts, the calculator's total is
`F * 0.04 + X * 0.1` mSv, and `update_dose` renders exactly that total to two
decimal places; in particular (0, 0) renders as "0.00" and (50, 20) as
"4.00". -/
theorem update_dose_formula :
    (∀ F X : ℕ, total_dose F X = 0.04 * (F : ℚ) + 0.1 * (X : ℚ)) ∧
    (∀ F X : ℕ, update_dose F X =
      "Your estimated annual radiation dose from selected activities: " ++
        format_fixed2 (0.04 * (F : ℚ) + 0.1 * (X : ℚ)) ++ " mSv") ∧
    format_fixed2 (total_dose 0 0) = "0.00" ∧
    format_fixed2 (total_dose 50 20) = "4.00" := by
  have hformula : ∀ F X : ℕ, total_dose F X = 0.04 * (F : ℚ) + 0.1 * (X : ℚ) := by
    intro F X
    unfold total_dose
    ring
  have h00 : format_fixed2 (total_dose 0 0) = "0.00" := by
    rw [format_fixed2, show total_dose 0 0 * 100 = 0 by norm_num [total_dose],
        round_zero]
    decide
  have h5020 : format_fixed2 (total_dose 50 20) = "4.00" := by
    rw [format_fixed2, show total_dose 50 20 * 100 = ((400 : ℕ) : ℚ) by
          norm_num [total_dose],
        round_natCast]
    decide
  refine ⟨hformula, ?_, h00, h5020⟩
  intro F X
  rw [update_dose, hformula]

/-- Claim C4: on the input pair (flights = 10, xrays = 5) the calculator
returns the formatted dose string "0.90 mSv" (appended to the fixed
explanatory sentence). -/
theorem update_dose_10_5 :
    update_dose 10 5 =
      "Your estimated annual radiation dose from selected activities: " ++
        "0.90 mSv" := by
  rw [update_dose, format_fixed2,
      show total_dose 10 5 * 100 = ((90 : ℕ) : ℚ) by norm_num [total_dose],
      round_natCast]
  decide

/-- A single invocation of the application's core: one of the five model
functions applied to a dose (and a threshold for the linear-threshold model),
or the calculator callback applied to a flight and X-ray count. -/
inductive Invocation where
  | supra (dose : ℝ)
  | lnt (dose : ℝ)
  | lq (dose : ℝ)
  | horm (dose : ℝ)
  | lthr (dose threshold : ℝ)
  | calculator (flights xrays : ℕ)

/-- The result of one invocation.  Each of the six entry points of src/app.py
reads only its arguments and module-level immutable constants, and writes
nothing, so an invocation is a pure function of its arguments. -/
noncomputable def runInvocation : Invocation → ℝ ⊕ String
  | .supra d => Sum.inl (supra_linear_model d)
  | .lnt d => Sum.inl (lnt_model d)
  | .lq d => Sum.inl (linear_quadratic_model d)
  | .horm d => Sum.inl (hormesis_model d)
  | .lthr d t => Sum.inl (linear_threshold_model d t)
  | .calculator f x => Sum.inr (update_dose f x)

/-- Running a sequence of invocations in order yields the list of their
results. -/
noncomputable def runTrace (trace : List Invocation) : List (ℝ ⊕ String) :=
  trace.map runInvocation

/-- Claim C9: invocations are deterministic, idempotent and independent: in
every trace, the result of an invocation is `runInvocation inv`, a function of
its own input alone, whatever invocations surround it; two invocations with
the same input return the same output wherever they occur; and a trace splits
into independent parts, so no invocation reads or writes state shared with
another. -/
theorem invocations_independent :
    (∀ (pre post : List Invocation) (inv : Invocation),
      runTrace (pre ++ inv :: post) =
        runTrace pre ++ runInvocation inv :: runTrace post) ∧
    (∀ (pre mid post : List Invocation) (inv : Invocation),
      runTrace (pre ++ inv :: mid ++ inv :: post) =
        runTrace pre ++ runInvocation inv ::
          (runTrace mid ++ runInvocation inv :: runTrace post)) ∧
    (∀ t1 t2 : List Invocation, runTrace (t1 ++ t2) = runTrace t1 ++ runTrace t2) := by
  refine ⟨?_, ?_, ?_⟩
  · intro pre post inv
    simp [runTrace]
  · intro pre mid post inv
    simp [runTrace]
  · intro t1 t2
    simp [runTrace]

end Dashapp
